import Mathlib

/-!
Verification of the node-side volume lifecycle of the vSphere CSI driver
(`pkg/csi/service/node.go`) and of the idempotent operation ledger
(`cnsvolumeoperationrequest`), as a shallow embedding in Lean 4.

Pure functions of the Go source become Lean functions; the stateful node
operations become functions on an explicit `NodeState` (filesystem entries,
OS mount table, device-resolution table) that return the gRPC-style result,
the successor state, and the trace of OS actions performed.  Fallible Go
code returns `Except`.
-/

set_option autoImplicit false

namespace VsphereCSI

/-! ## gRPC status codes (google.golang.org/grpc/codes) -/

inductive Code where
  | InvalidArgument
  | FailedPrecondition
  | NotFound
  | AlreadyExists
  | Internal
  deriving DecidableEq, Repr

/-- A gRPC status error as produced by `status.Error(code, msg)`. -/
structure CSIError where
  code : Code
  msg : String
  deriving DecidableEq, Repr

/-- Extracts the gRPC code from a result, `none` on success. -/
def errCode {α : Type} : Except CSIError α → Option Code
  | .error e => some e.code
  | .ok _ => none

/-! ## Idempotent operation ledger (`cnsvolumeoperationrequest`)

Embeds `operationRequestStore.GetRequestDetails` and
`operationRequestStore.StoreRequestDetails`.  The backing store (etcd via
the API server) is modelled as the optional instance currently stored
under the requested name. -/

/-- One historical record of a long-running operation
(`v1alpha1.OperationDetails`; the Go field `Error` is rendered `ErrorMsg`). -/
structure OperationDetails where
  TaskInvocationTimestamp : String
  TaskID : String
  OpID : String
  TaskStatus : String
  ErrorMsg : String
  deriving DecidableEq, Repr

/-- `v1alpha1.CnsVolumeOperationRequestStatus`. -/
structure CnsVolumeOperationRequestStatus where
  VolumeID : String
  SnapshotID : String
  Capacity : Int
  FirstOperationDetails : OperationDetails
  LatestOperationDetails : List OperationDetails
  deriving DecidableEq, Repr

/-- `v1alpha1.CnsVolumeOperationRequest`; `SpecName` is `Spec.Name`. -/
structure CnsVolumeOperationRequest where
  SpecName : String
  Status : CnsVolumeOperationRequestStatus
  deriving DecidableEq, Repr

/-- `VolumeOperationRequestDetails`: what callers pass to
`StoreRequestDetails` and receive from `GetRequestDetails`. -/
structure VolumeOperationRequestDetails where
  Name : String
  VolumeID : String
  SnapshotID : String
  Capacity : Int
  OpDetails : OperationDetails
  deriving DecidableEq, Repr

/-- Cap on `LatestOperationDetails`
(`maxEntriesInLatestOperationDetails`; the constant's declaration is not in
the corpus, but the source comment at the eviction site fixes it: "ensure
length of LatestOperationDetails is not greater than 10"). -/
def maxEntriesInLatestOperationDetails : Nat := 10

/-- The backwards index scan of `StoreRequestDetails`
(`for index := len(list)-1; index >= 0; index--`): index of the LAST
element whose `TaskID` equals `tid`, if any. -/
def findLastTaskIdx : List OperationDetails → String → Option Nat
  | [], _ => none
  | od :: rest, tid =>
    match findLastTaskIdx rest tid with
    | some i => some (i + 1)
    | none => if od.TaskID = tid then some 0 else none

/-- The `LatestOperationDetails` update performed by `StoreRequestDetails`
on an existing instance: overwrite the last entry with a matching `TaskID`
in place, else append and evict the oldest entry once the list exceeds the
cap (`list = append(list, op); if len > max then list = list[1:]`). -/
def updateLatestOperationDetails (list : List OperationDetails)
    (op : OperationDetails) : List OperationDetails :=
  match findLastTaskIdx list op.TaskID with
  | some i => list.set i op
  | none =>
    let l := list ++ [op]
    if l.length > maxEntriesInLatestOperationDetails then l.tail else l

/-- The `FirstOperationDetails` update of `StoreRequestDetails`: overwritten
only if it does not exist (empty TaskID) or the TaskIDs match. -/
def updateFirstOperationDetails (firstOp : OperationDetails)
    (op : OperationDetails) : OperationDetails :=
  if firstOp.TaskID = "" ∨ firstOp.TaskID = op.TaskID then op else firstOp

/-- `operationRequestStore.StoreRequestDetails`: `existing` is the result of
the `Get` against the API server for the instance name (`none` = NotFound,
creating a fresh instance).  Returns the instance written back. -/
def storeRequestDetails (existing : Option CnsVolumeOperationRequest)
    (toStore : VolumeOperationRequestDetails) : CnsVolumeOperationRequest :=
  match existing with
  | none =>
    { SpecName := toStore.Name
      Status :=
        { VolumeID := toStore.VolumeID
          SnapshotID := toStore.SnapshotID
          Capacity := toStore.Capacity
          FirstOperationDetails := toStore.OpDetails
          LatestOperationDetails := [toStore.OpDetails] } }
  | some inst =>
    { inst with
        Status :=
          { VolumeID := toStore.VolumeID
            SnapshotID := toStore.SnapshotID
            Capacity := toStore.Capacity
            FirstOperationDetails :=
              updateFirstOperationDetails inst.Status.FirstOperationDetails toStore.OpDetails
            LatestOperationDetails :=
              updateLatestOperationDetails inst.Status.LatestOperationDetails toStore.OpDetails } }

/-- `operationRequestStore.GetRequestDetails`: `fetch` is the result of the
`Get` against the API server.  Errors when `LatestOperationDetails` is
empty, otherwise returns only the most recent element together with the
entry-level fields. -/
def getRequestDetails (fetch : Except String CnsVolumeOperationRequest) :
    Except String VolumeOperationRequestDetails :=
  match fetch with
  | .error e => .error e
  | .ok inst =>
    match inst.Status.LatestOperationDetails.getLast? with
    | none =>
      .error "length of LatestOperationDetails expected to be greater than 1 if the instance exists"
    | some last =>
      .ok { Name := inst.SpecName
            VolumeID := inst.Status.VolumeID
            SnapshotID := inst.Status.SnapshotID
            Capacity := inst.Status.Capacity
            OpDetails := last }

/-! ## UUID conversion (`convertUUID`) -/

/-- Go string slicing `s[i:j]` (byte-indexed; all inputs of interest are
ASCII, where bytes and characters coincide). -/
def goSlice (s : String) (i j : Nat) : String :=
  String.mk ((s.toList.drop i).take (j - i))

/-- `strings.ToLower` restricted to ASCII (UUID strings are ASCII): maps
an upper-case letter to its lower-case counterpart. -/
def asciiToLower (c : Char) : Char :=
  if c.toNat ≥ 65 ∧ c.toNat ≤ 90 then Char.ofNat (c.toNat + 32) else c

/-- `strings.ToLower` on an ASCII string. -/
def strToLower (s : String) : String :=
  String.mk (s.toList.map asciiToLower)

/-- `convertUUID`: converts a UUID to vSphere format by byte-swapping the
first three hyphen-separated groups, keeping the last two, and
lowercasing; errors unless the input length is exactly 36. -/
def convertUUID (uuid : String) : Except String String :=
  if uuid.length ≠ 36 then .error "uuid length should be 36"
  else
    .ok (strToLower
      (goSlice uuid 6 8 ++ goSlice uuid 4 6 ++ goSlice uuid 2 4 ++ goSlice uuid 0 2
        ++ "-" ++ goSlice uuid 11 13 ++ goSlice uuid 9 11
        ++ "-" ++ goSlice uuid 16 18 ++ goSlice uuid 14 16
        ++ "-" ++ goSlice uuid 19 23
        ++ "-" ++ goSlice uuid 24 36))

/-! ## Node-side data model (`node.go`)

The OS environment a node operation observes and mutates:
filesystem path entries (file or directory), the live mount table
(`gofsutil.GetMounts`), and the device-resolution table (`getDevice`,
i.e. symlink evaluation plus the block-device mode check). -/

/-- A filesystem path entry is either a regular file or a directory. -/
inductive PathKind where
  | file
  | dir
  deriving DecidableEq, Repr

/-- Filesystem state: the set of existing paths with their kind. -/
def FS := List (String × PathKind)

instance : DecidableEq FS := by unfold FS; infer_instance

/-- `os.Stat`: the kind of the entry at `p`, `none` when it does not exist. -/
def FS.stat (fs : FS) (p : String) : Option PathKind :=
  List.lookup p fs

/-- `Device` (node.go): details about a block device. -/
structure Device where
  FullPath : String
  Name : String
  RealDev : String
  deriving DecidableEq, Repr

/-- `gofsutil.Info`: one line of the OS mount table.  The Go field `Type`
is rendered `Typ`. -/
structure MountInfo where
  Device : String
  Path : String
  Source : String
  Typ : String
  Opts : List String
  deriving DecidableEq, Repr

/-- The OS state a node operation observes and mutates.  `devTable` maps a
device token (path string, as found in the mount table or passed to
`getDevice`) to the resolved `Device`; a token absent from the table is one
that `getDevice` fails on (missing path, dangling symlink, or not a block
device). -/
structure NodeState where
  fs : FS
  mounts : List MountInfo
  devTable : List (String × Device)
  deriving DecidableEq

/-- The trace of OS side effects a node operation performs. -/
inductive OsAction where
  | mkFile (path : String)
  | mkDir (path : String)
  | mount (source target fsType : String) (flags : List String)
  | formatAndMount (source target fsType : String) (flags : List String)
  | bindMount (source target : String) (flags : List String)
  | unmount (target : String)
  | remove (path : String)
  deriving DecidableEq, Repr

/-- `nodeStageParams` (node.go). -/
structure NodeStageParams where
  volID : String
  fsType : String
  stagingTarget : String
  mntFlags : List String
  ro : Bool
  deriving DecidableEq, Repr

/-- `nodePublishParams` (node.go). -/
structure NodePublishParams where
  volID : String
  target : String
  stagingTarget : String
  diskID : String
  volumePath : String
  device : String
  ro : Bool
  deriving DecidableEq, Repr

/-! ## Filesystem helpers (`mkfile`, `mkdir`, `rmpath`, `verifyTargetDir`) -/

/-- `mkfile`: creates the file at `p` if needed.  Returns the new
filesystem and whether the file was created; errors if an existing entry
is a directory. -/
def mkfile (fs : FS) (p : String) : Except String (FS × Bool) :=
  match fs.stat p with
  | none => .ok ((p, PathKind.file) :: fs, true)
  | some PathKind.dir => .error "existing path is a directory"
  | some PathKind.file => .ok (fs, false)

/-- `mkdir`: creates the directory at `p` if needed.  Returns the new
filesystem and whether the directory was created; errors if an existing
entry is not a directory. -/
def mkdir (fs : FS) (p : String) : Except String (FS × Bool) :=
  match fs.stat p with
  | none => .ok ((p, PathKind.dir) :: fs, true)
  | some PathKind.file => .error "existing path is not a directory"
  | some PathKind.dir => .ok (fs, false)

/-- `rmpath` / `os.Remove`: removes the entry at `target`; errors when it
does not exist. -/
def rmpath (fs : FS) (target : String) : Except String FS :=
  match fs.stat target with
  | none => .error "Unable to remove target path"
  | some _ => .ok (fs.filter (fun e => ¬ e.1 = target))

/-- `verifyTargetDir`: checks that `target` is non-empty, exists (when
`targetShouldExist`) and is a directory.  Returns `false` (without error)
for a missing path when `targetShouldExist` is `false`. -/
def verifyTargetDir (target : String) (targetShouldExist : Bool) (fs : FS) :
    Except CSIError Bool :=
  if target = "" then .error ⟨Code.InvalidArgument, "target path required"⟩
  else
    match fs.stat target with
    | none =>
      if targetShouldExist then
        .error ⟨Code.FailedPrecondition, "target not pre-created"⟩
      else .ok false
    | some PathKind.file =>
      .error ⟨Code.FailedPrecondition, "existing path is not a directory"⟩
    | some PathKind.dir => .ok true

/-! ## Mount-table helpers -/

/-- `getDevice`: resolves a device token through the device table;
`none` models the error cases (path missing, symlink evaluation failure,
or not a block device). -/
def getDevice (st : NodeState) (tok : String) : Option Device :=
  List.lookup tok st.devTable

/-- `getDevMounts` (node.go): the mount-table entries backed by
`sysDevice`, matching either directly on the device token or on a
devtmpfs-style placeholder whose source is the real device. -/
def getDevMounts (dev : Device) (mnts : List MountInfo) : List MountInfo :=
  mnts.filter (fun m => m.Device = dev.RealDev ∨ (m.Device = "devtmpfs" ∧ m.Source = dev.RealDev))

/-- Modelled from the spec: `common.IsTargetInMounts` (the Mount
Inspector's `ContainsPath(mounts, path)`), whose declaration is not in the
corpus: whether some mount-table entry is at `target`. -/
def isTargetInMounts (target : String) (mnts : List MountInfo) : Bool :=
  mnts.any (fun m => m.Path = target)

/-- Modelled from the spec: `common.IsFileVolumeMount` (the Mount
Inspector's `ClassifyMount(mounts, path) -> FileShare or Other`), whose
declaration is not in the corpus: whether the mount at `target` is a
file-share (NFS) mount. -/
def isFileVolumeMount (target : String) (mnts : List MountInfo) : Bool :=
  match mnts.find? (fun m => m.Path = target) with
  | some m => m.Typ = "nfs" || m.Typ = "nfs4"
  | none => false

/-- `getDevFromMount`: finds the mount-table entry at `target`,
substitutes the source for a udev/devtmpfs placeholder, and resolves the
token through `getDevice`.  `.ok none` (nil, no error) when nothing is
mounted at `target`. -/
def getDevFromMount (target : String) (st : NodeState) : Except String (Option Device) :=
  match st.mounts.find? (fun m => m.Path = target) with
  | some m =>
    let d := if m.Device = "udev" ∨ m.Device = "devtmpfs" then m.Source else m.Device
    match getDevice st d with
    | some dev => .ok (some dev)
    | none => .error "could not resolve device behind mount"
  | none => .ok none

/-! ## Kernel mount-table effects

The Go code mutates the mount table only through `gofsutil`; the records
the kernel then exposes in the mount table are modelled here.  The kernel
resolves the device path passed to mount(2) and records the canonical
device node (this is what `getDevMounts`' matching on `RealDev` relies
on), and the options column of every mount line records the access mode:
`ro` when requested, `rw` otherwise. -/

/-- The mount options the kernel records for a mount with `flags`. -/
def kernelOpts (flags : List String) : List String :=
  if flags.contains "ro" then flags else "rw" :: flags

/-- Mount-table record created by `gofsutil.Mount`/`FormatAndMount` of
device `dev` at `target`. -/
def kernelMountRecord (dev : Device) (target fsType : String) (flags : List String) : MountInfo :=
  { Device := dev.RealDev, Path := target, Source := dev.FullPath,
    Typ := fsType, Opts := kernelOpts flags }

/-- Mount-table record created by `gofsutil.BindMount` of a staged
directory (`source`) into `target`; the kernel records the backing block
device of the staged filesystem. -/
def kernelBindMountRecord (dev : Device) (source target : String) (flags : List String) : MountInfo :=
  { Device := dev.RealDev, Path := target, Source := source,
    Typ := "ext4", Opts := kernelOpts flags }

/-- Mount-table record created by `gofsutil.BindMount` of a raw block
device node to a target file: the device column shows the devtmpfs
placeholder and the source column the real device node (see the
`getDevFromMount` examples in node.go). -/
def kernelBindMountBlockRecord (dev : Device) (target : String) : MountInfo :=
  { Device := "devtmpfs", Path := target, Source := dev.RealDev,
    Typ := "devtmpfs", Opts := kernelOpts [] }

/-! ## Stage Controller (`nodeStageBlockVolume`, lines 133-234)

The device-resolution prelude (`getDiskID`, `verifyVolumeAttached`,
`getDevice`) is taken as a resolved `dev` input; the claims under study
all start from a resolved, attached device.  `isBlockCapability` selects
the raw-block early return (`VolumeCapability_Block`). -/

deriving instance DecidableEq for Except

/-- Result triple of a stateful node operation: gRPC result, successor OS
state, trace of OS actions performed. -/
def NodeResult := Except CSIError Unit × NodeState × List OsAction

instance : DecidableEq NodeResult := by unfold NodeResult; infer_instance

/-- `nodeStageBlockVolume` from the point where the backing device is
resolved: raw-block capability returns success without mounting; for a
mount capability, zero device mounts stage fresh (`Mount` with `ro`
appended when read-only, else `FormatAndMount` with the requested flags),
a mount at the staging target is checked for the requested rw/ro option
(idempotent success or `AlreadyExists`), and mounts only elsewhere fail
`Internal`. -/
def nodeStageBlockVolume (isBlockCapability : Bool) (params : NodeStageParams)
    (dev : Device) (st : NodeState) : NodeResult :=
  if isBlockCapability then (.ok (), st, [])
  else
    let mnts := getDevMounts dev st.mounts
    if mnts.length = 0 then
      if params.ro then
        let flags := params.mntFlags ++ ["ro"]
        (.ok (),
         { st with mounts := kernelMountRecord dev params.stagingTarget params.fsType flags :: st.mounts },
         [OsAction.mount dev.FullPath params.stagingTarget params.fsType flags])
      else
        (.ok (),
         { st with mounts := kernelMountRecord dev params.stagingTarget params.fsType params.mntFlags :: st.mounts },
         [OsAction.formatAndMount dev.FullPath params.stagingTarget params.fsType params.mntFlags])
    else
      match mnts.find? (fun m => m.Path = params.stagingTarget) with
      | some m =>
        let rwo := if params.ro then "ro" else "rw"
        if m.Opts.contains rwo then (.ok (), st, [])
        else (.error ⟨Code.AlreadyExists, "access mode conflicts with existing mount at staging target"⟩, st, [])
      | none => (.error ⟨Code.Internal, "device already in use and mounted elsewhere"⟩, st, [])

/-! ## Publish Controller (`publishBlockVol`, `publishMountVol`) -/

/-- `publishBlockVol` (lines 960-1022): creates the target file, rejects
read-only, then bind-mounts the device to the target when the device has
no mounts; one mount elsewhere is an `Internal` conflict, one mount at the
target is idempotent success, more than one mount is `AlreadyExists`. -/
def publishBlockVol (params : NodePublishParams) (dev : Device) (st : NodeState) : NodeResult :=
  match mkfile st.fs params.target with
  | .error _ => (.error ⟨Code.Internal, "Unable to create target file"⟩, st, [])
  | .ok (fs1, created) =>
    let st1 : NodeState := { st with fs := fs1 }
    let acts := if created then [OsAction.mkFile params.target] else []
    if params.ro then
      (.error ⟨Code.InvalidArgument, "read only not supported for Block Volume"⟩, st1, acts)
    else
      match getDevMounts dev st1.mounts with
      | [] =>
        (.ok (),
         { st1 with mounts := kernelBindMountBlockRecord dev params.target :: st1.mounts },
         acts ++ [OsAction.bindMount dev.FullPath params.target []])
      | [m] =>
        if ¬ m.Path = params.target then
          (.error ⟨Code.Internal, "device already in use and mounted elsewhere"⟩, st1, acts)
        else (.ok (), st1, acts)
      | _ => (.error ⟨Code.AlreadyExists, "block volume already mounted in more than one place"⟩, st1, acts)

/-- The final bind-mount step of `publishMountVol`: bind-mounts the staged
directory into the workload target, with `ro` appended when read-only. -/
def publishMountVolBind (params : NodePublishParams) (mntFlags : List String)
    (dev : Device) (st1 : NodeState) (acts : List OsAction) : NodeResult :=
  let flags := if params.ro then mntFlags ++ ["ro"] else mntFlags
  (.ok (),
   { st1 with mounts := kernelBindMountRecord dev params.stagingTarget params.target flags :: st1.mounts },
   acts ++ [OsAction.bindMount params.stagingTarget params.target flags])

/-- `publishMountVol` (lines 879-958): creates the target directory,
requires the staging target to exist, and inspects the device mounts: more
than one mount triggers the already-published scan at the target (matching
rw/ro option is idempotent success, mismatch is `AlreadyExists`, no match
falls through to the bind mount), zero mounts is `FailedPrecondition`
(not staged), otherwise the staged directory is bind-mounted to the
target.  `mntFlags` is the flag list extracted by `ensureMountVol` from
the mount capability. -/
def publishMountVol (params : NodePublishParams) (mntFlags : List String)
    (dev : Device) (st : NodeState) : NodeResult :=
  match mkdir st.fs params.target with
  | .error _ => (.error ⟨Code.Internal, "Unable to create target dir"⟩, st, [])
  | .ok (fs1, created) =>
    let st1 : NodeState := { st with fs := fs1 }
    let acts := if created then [OsAction.mkDir params.target] else []
    match verifyTargetDir params.stagingTarget true st1.fs with
    | .error e => (.error e, st1, acts)
    | .ok _ =>
      let devMnts := getDevMounts dev st1.mounts
      if devMnts.length = 0 then
        (.error ⟨Code.FailedPrecondition, "volume does not appear staged"⟩, st1, acts)
      else
        match (if 1 < devMnts.length then devMnts.find? (fun m => m.Path = params.target) else none) with
        | some m =>
          let rwo := if params.ro then "ro" else "rw"
          if ¬ m.Opts.contains rwo then
            (.error ⟨Code.AlreadyExists, "volume previously published with different options"⟩, st1, acts)
          else (.ok (), st1, acts)
        | none => publishMountVolBind params mntFlags dev st1 acts

/-! ## Unpublish / Unstage Controller -/

/-- `isBlockVolumePublished`: looks up the device behind the target mount;
a `nil` device means unpublish is already done, but the leftover target
path artifact is removed here.  Returns whether the volume is still
published, together with the successor state and actions. -/
def isBlockVolumePublished (target : String) (st : NodeState) :
    Except CSIError (Bool × NodeState × List OsAction) :=
  match getDevFromMount target st with
  | .error _ => .error ⟨Code.Internal, "error getting block device for volume"⟩
  | .ok none =>
    match rmpath st.fs target with
    | .error _ => .error ⟨Code.Internal, "Failed to delete the target path"⟩
    | .ok fs1 => .ok (false, { st with fs := fs1 }, [OsAction.remove target])
  | .ok (some _) => .ok (true, st, [])

/-- `gofsutil.Unmount`: drops the mount-table entries at `target`. -/
def unmountAt (st : NodeState) (target : String) : NodeState :=
  { st with mounts := st.mounts.filter (fun m => ¬ m.Path = target) }

/-- `NodeUnpublishVolume` (lines 398-467): missing target path or target
absent from the mount table is idempotent success; otherwise the target is
classified (file-share vs block/mount), the block path resolves the
backing device (a nil device short-circuits as already unpublished after
removing the artifact), and a published volume is unmounted and its target
artifact removed. -/
def nodeUnpublishVolume (target : String) (st : NodeState) : NodeResult :=
  match st.fs.stat target with
  | none => (.ok (), st, [])
  | some _ =>
    if isTargetInMounts target st.mounts then
      let blockStep : Except CSIError (Bool × NodeState × List OsAction) :=
        if isFileVolumeMount target st.mounts then .ok (true, st, [])
        else isBlockVolumePublished target st
      match blockStep with
      | .error e => (.error e, st, [])
      | .ok (isPublished, st1, acts) =>
        if isPublished then
          let st2 := unmountAt st1 target
          match rmpath st2.fs target with
          | .error _ =>
            (.error ⟨Code.Internal, "Unable to remove target path"⟩, st2,
             acts ++ [OsAction.unmount target])
          | .ok fs2 =>
            (.ok (), { st2 with fs := fs2 },
             acts ++ [OsAction.unmount target, OsAction.remove target])
        else (.ok (), st1, acts)
    else (.ok (), st, [])

/-- `isBlockVolumeMounted` (lines 290-338): device behind the staging
target; nil means unstaging is already done; a device mounted in more than
one place is an `Internal` inconsistency. -/
def isBlockVolumeMounted (stagingTarget : String) (st : NodeState) :
    Except CSIError Bool :=
  match getDevFromMount stagingTarget st with
  | .error _ => .error ⟨Code.Internal, "error getting block device for volume"⟩
  | .ok none => .ok false
  | .ok (some dev) =>
    if (getDevMounts dev st.mounts).length > 1 then
      .error ⟨Code.Internal, "volume appears mounted in multiple places"⟩
    else .ok true

/-- `NodeUnstageVolume` (lines 236-286): staging target absent from the
mount table or not existing on disk is idempotent success; a still-mounted
volume is unmounted.  The staging path artifact is never removed. -/
def nodeUnstageVolume (stagingTarget : String) (st : NodeState) : NodeResult :=
  if isTargetInMounts stagingTarget st.mounts then
    match verifyTargetDir stagingTarget false st.fs with
    | .error e => (.error e, st, [])
    | .ok false => (.ok (), st, [])
    | .ok true =>
      match isBlockVolumeMounted stagingTarget st with
      | .error e => (.error e, st, [])
      | .ok true => (.ok (), unmountAt st stagingTarget, [OsAction.unmount stagingTarget])
      | .ok false => (.ok (), st, [])
  else (.ok (), st, [])

/-! ## Helper lemmas -/

theorem findLastTaskIdx_eq_none (l : List OperationDetails) (tid : String)
    (h : ∀ od ∈ l, od.TaskID ≠ tid) : findLastTaskIdx l tid = none := by
  induction l with
  | nil => rfl
  | cons od rest ih =>
    have hod : od.TaskID ≠ tid := h od (List.mem_cons_self od rest)
    have hrest := ih (fun x hx => h x (List.mem_cons_of_mem od hx))
    simp [findLastTaskIdx, hrest, hod]

theorem findLastTaskIdx_of_map (l : List OperationDetails) (tid : String)
    (h : tid ∉ l.map OperationDetails.TaskID) : findLastTaskIdx l tid = none := by
  refine findLastTaskIdx_eq_none l tid ?_
  intro od hod heq
  exact h (heq ▸ List.mem_map_of_mem OperationDetails.TaskID hod)

/-! ## Claim theorems: ledger -/

/-- C4: `StoreRequestDetails` on an existing Ledger entry: an operation
whose TaskID is new is appended at the end (order preserved) and, when
the list would exceed 10 elements, the oldest is evicted so the length
stays at most 10; an operation whose TaskID matches an existing element
(the last such, located by the backwards scan) overwrites that element in
place, leaving the length unchanged. -/
theorem storeRequestDetails_latest_spec (inst : CnsVolumeOperationRequest)
    (toStore : VolumeOperationRequestDetails) :
    (toStore.OpDetails.TaskID ∉ inst.Status.LatestOperationDetails.map OperationDetails.TaskID →
        (inst.Status.LatestOperationDetails.length < 10 →
          (storeRequestDetails (some inst) toStore).Status.LatestOperationDetails =
            inst.Status.LatestOperationDetails ++ [toStore.OpDetails])
      ∧ (inst.Status.LatestOperationDetails.length = 10 →
          (storeRequestDetails (some inst) toStore).Status.LatestOperationDetails =
            inst.Status.LatestOperationDetails.tail ++ [toStore.OpDetails])
      ∧ (inst.Status.LatestOperationDetails.length ≤ 10 →
          (storeRequestDetails (some inst) toStore).Status.LatestOperationDetails.length ≤ 10))
    ∧ (∀ i, findLastTaskIdx inst.Status.LatestOperationDetails toStore.OpDetails.TaskID = some i →
        (storeRequestDetails (some inst) toStore).Status.LatestOperationDetails =
          inst.Status.LatestOperationDetails.set i toStore.OpDetails
        ∧ (storeRequestDetails (some inst) toStore).Status.LatestOperationDetails.length =
            inst.Status.LatestOperationDetails.length) := by
  set old := inst.Status.LatestOperationDetails with hold
  have hmain : (storeRequestDetails (some inst) toStore).Status.LatestOperationDetails
      = updateLatestOperationDetails old toStore.OpDetails := rfl
  constructor
  · intro hnotin
    have hnone : findLastTaskIdx old toStore.OpDetails.TaskID = none :=
      findLastTaskIdx_of_map old _ hnotin
    have hupd : updateLatestOperationDetails old toStore.OpDetails
        = (if (old ++ [toStore.OpDetails]).length > 10 then (old ++ [toStore.OpDetails]).tail
           else old ++ [toStore.OpDetails]) := by
      simp [updateLatestOperationDetails, hnone, maxEntriesInLatestOperationDetails]
    refine ⟨?_, ?_, ?_⟩
    · intro hlt
      have hcond : ¬ (old ++ [toStore.OpDetails]).length > 10 := by
        simp only [List.length_append, List.length_singleton]
        omega
      rw [hmain, hupd, if_neg hcond]
    · intro heq
      have hcond : (old ++ [toStore.OpDetails]).length > 10 := by
        simp only [List.length_append, List.length_singleton]
        omega
      rw [hmain, hupd, if_pos hcond]
      have hne : old ≠ [] := by
        intro h0
        rw [h0] at heq
        simp at heq
      exact List.tail_append_singleton_of_ne_nil hne
    · intro hle
      rw [hmain, hupd]
      by_cases hcond : (old ++ [toStore.OpDetails]).length > 10
      · rw [if_pos hcond]
        simp only [List.length_tail, List.length_append, List.length_singleton]
        omega
      · rw [if_neg hcond]
        simp only [List.length_append, List.length_singleton] at hcond ⊢
        omega
  · intro i hi
    have hset : updateLatestOperationDetails old toStore.OpDetails
        = old.set i toStore.OpDetails := by
      simp [updateLatestOperationDetails, hi]
    rw [hmain, hset]
    exact ⟨rfl, by simp⟩

/-- Witness for `storeRequestDetails_latest_spec` at a concrete
two-element ledger entry and a fresh TaskID. -/
theorem storeRequestDetails_latest_spec_witness :
    (let od1 : OperationDetails := ⟨"t1", "task1", "op1", "ok", ""⟩
     let od2 : OperationDetails := ⟨"t2", "task2", "op2", "ok", ""⟩
     let od3 : OperationDetails := ⟨"t3", "task3", "op3", "ok", ""⟩
     let inst : CnsVolumeOperationRequest := ⟨"pvc-1", ⟨"vol-1", "", 100, od1, [od1, od2]⟩⟩
     let toStore : VolumeOperationRequestDetails := ⟨"pvc-1", "vol-1", "", 100, od3⟩
     toStore.OpDetails.TaskID ∉ inst.Status.LatestOperationDetails.map OperationDetails.TaskID
     ∧ inst.Status.LatestOperationDetails.length < 10
     ∧ (storeRequestDetails (some inst) toStore).Status.LatestOperationDetails =
         inst.Status.LatestOperationDetails ++ [toStore.OpDetails]) := by
  refine ⟨by decide, by decide, ?_⟩
  exact ((storeRequestDetails_latest_spec _ _).1 (by decide)).1 (by decide)

/-- C8: `GetRequestDetails` returns only the most recent element of
`LatestOperationDetails` (together with the entry's VolumeID, SnapshotID
and Capacity), never the whole history, and errors when the list is
empty. -/
theorem getRequestDetails_spec (inst : CnsVolumeOperationRequest) :
    (∀ last, inst.Status.LatestOperationDetails.getLast? = some last →
      getRequestDetails (.ok inst) =
        .ok ⟨inst.SpecName, inst.Status.VolumeID, inst.Status.SnapshotID,
             inst.Status.Capacity, last⟩)
    ∧ (inst.Status.LatestOperationDetails = [] →
      getRequestDetails (.ok inst) =
        .error "length of LatestOperationDetails expected to be greater than 1 if the instance exists") := by
  constructor
  · intro last hlast
    simp [getRequestDetails, hlast]
  · intro hnil
    simp [getRequestDetails, hnil]

/-- Witness for `getRequestDetails_spec` at a freshly created entry. -/
theorem getRequestDetails_spec_witness :
    (let od : OperationDetails := ⟨"t1", "task1", "op1", "ok", ""⟩
     let inst : CnsVolumeOperationRequest := ⟨"pvc-1", ⟨"vol-1", "", 100, od, [od]⟩⟩
     inst.Status.LatestOperationDetails.getLast? = some od
     ∧ getRequestDetails (.ok inst) = .ok ⟨"pvc-1", "vol-1", "", 100, od⟩) := by
  exact ⟨by decide, (getRequestDetails_spec _).1 _ (by decide)⟩

/-! ## Claim theorems: UUID conversion -/

/-- C9: `convertUUID` byte-swaps the first three hyphen-separated groups,
keeps the last two, and lowercases, mapping the documented input to the
documented output; any input whose length is not 36 yields an error. -/
theorem convertUUID_spec :
    convertUUID "6B8C2042-0DD1-D037-156F-435F999D94C1" =
      .ok "42208c6b-d10d-37d0-156f-435f999d94c1"
    ∧ ∀ s : String, s.length ≠ 36 → convertUUID s = .error "uuid length should be 36" := by
  constructor
  · decide
  · intro s h
    simp [convertUUID, h]

/-- Witness for `convertUUID_spec` at a length-2 input. -/
theorem convertUUID_spec_witness :
    ("ab" : String).length ≠ 36 ∧ convertUUID "ab" = .error "uuid length should be 36" :=
  ⟨by decide, convertUUID_spec.2 "ab" (by decide)⟩

/-! ## Concrete fixtures for witnesses and counterexamples -/

/-- A resolved block device fixture. -/
def devB : Device := ⟨"/dev/disk/by-id/wwn-0x1", "wwn-0x1", "/dev/sdb"⟩

/-- A node state with nothing on disk and nothing mounted. -/
def emptySt : NodeState := ⟨[], [], []⟩

/-- A node state where the backing device is mounted once, elsewhere. -/
def oneMountSt : NodeState :=
  ⟨[], [⟨"/dev/sdb", "/mnt/elsewhere", "/dev/sdb", "ext4", ["rw"]⟩], []⟩

/-- Publish parameters fixture, read-only. -/
def pparamsRO : NodePublishParams :=
  ⟨"vol-1", "/t", "/stage", "1", "/dev/disk/by-id/wwn-0x1", "/dev/sdb", true⟩

/-- Publish parameters fixture, read-write. -/
def pparamsRW : NodePublishParams :=
  ⟨"vol-1", "/t", "/stage", "1", "/dev/disk/by-id/wwn-0x1", "/dev/sdb", false⟩

/-! ## Claim theorems: block publish -/

/-- C1: NodePublishVolume of a block-capability volume with
`readOnly = true` fails `InvalidArgument`, regardless of the current
mount state of the backing device (st.mounts is arbitrary; the only side
condition is that creating the target file succeeds, i.e. the target is
not an existing directory). -/
theorem publishBlockVol_readonly_invalid (params : NodePublishParams) (dev : Device)
    (st : NodeState) (hro : params.ro = true)
    (hmk : st.fs.stat params.target ≠ some PathKind.dir) :
    (publishBlockVol params dev st).1 =
      .error ⟨Code.InvalidArgument, "read only not supported for Block Volume"⟩ := by
  cases hstat : st.fs.stat params.target with
  | none => simp [publishBlockVol, mkfile, hstat, hro]
  | some k =>
    cases k with
    | file => simp [publishBlockVol, mkfile, hstat, hro]
    | dir => exact absurd hstat hmk

/-- Witness for `publishBlockVol_readonly_invalid`: a read-only block
publish against a device that is even mounted somewhere else. -/
theorem publishBlockVol_readonly_invalid_witness :
    pparamsRO.ro = true
    ∧ oneMountSt.fs.stat pparamsRO.target ≠ some PathKind.dir
    ∧ (publishBlockVol pparamsRO devB oneMountSt).1 =
        .error ⟨Code.InvalidArgument, "read only not supported for Block Volume"⟩ :=
  ⟨rfl, by decide,
   publishBlockVol_readonly_invalid pparamsRO devB oneMountSt rfl (by decide)⟩

/-- C10: the read-only rejection of a block publish is not atomic: the
target file is created before the read-only check runs, so after the
`InvalidArgument` error the freshly created file artifact persists at the
target path, and the trace shows exactly that creation. -/
theorem publishBlockVol_readonly_artifact (params : NodePublishParams) (dev : Device)
    (st : NodeState) (hro : params.ro = true)
    (habs : st.fs.stat params.target = none) :
    (publishBlockVol params dev st).1 =
      .error ⟨Code.InvalidArgument, "read only not supported for Block Volume"⟩
    ∧ (publishBlockVol params dev st).2.1.fs.stat params.target = some PathKind.file
    ∧ (publishBlockVol params dev st).2.2 = [OsAction.mkFile params.target] := by
  have hres : publishBlockVol params dev st =
      (.error ⟨Code.InvalidArgument, "read only not supported for Block Volume"⟩,
       { st with fs := (params.target, PathKind.file) :: st.fs },
       [OsAction.mkFile params.target]) := by
    simp [publishBlockVol, mkfile, habs, hro]
  refine ⟨by rw [hres], ?_, by rw [hres]⟩
  rw [hres]
  simp [FS.stat, List.lookup]

/-- Witness for `publishBlockVol_readonly_artifact` at a concrete state
with no pre-existing target. -/
theorem publishBlockVol_readonly_artifact_witness :
    pparamsRO.ro = true
    ∧ emptySt.fs.stat pparamsRO.target = none
    ∧ (publishBlockVol pparamsRO devB emptySt).1 =
        .error ⟨Code.InvalidArgument, "read only not supported for Block Volume"⟩
    ∧ (publishBlockVol pparamsRO devB emptySt).2.1.fs.stat pparamsRO.target = some PathKind.file :=
  ⟨rfl, rfl,
   (publishBlockVol_readonly_artifact pparamsRO devB emptySt rfl rfl).1,
   (publishBlockVol_readonly_artifact pparamsRO devB emptySt rfl rfl).2.1⟩

/-- C7: a block publish with `readOnly = false`: zero existing device
mounts bind-mounts the device full path to the target and succeeds;
exactly one existing mount at a different path fails `Internal`; more
than one existing mount fails `AlreadyExists`. -/
theorem publishBlockVol_rw_cases (params : NodePublishParams) (dev : Device)
    (st : NodeState) (hro : params.ro = false)
    (hmk : st.fs.stat params.target ≠ some PathKind.dir) :
    (getDevMounts dev st.mounts = [] →
      (publishBlockVol params dev st).1 = .ok ()
      ∧ OsAction.bindMount dev.FullPath params.target [] ∈ (publishBlockVol params dev st).2.2)
    ∧ (∀ m, getDevMounts dev st.mounts = [m] → ¬ m.Path = params.target →
      (publishBlockVol params dev st).1 =
        .error ⟨Code.Internal, "device already in use and mounted elsewhere"⟩)
    ∧ (2 ≤ (getDevMounts dev st.mounts).length →
      (publishBlockVol params dev st).1 =
        .error ⟨Code.AlreadyExists, "block volume already mounted in more than one place"⟩) := by
  have hstat : st.fs.stat params.target = none ∨ st.fs.stat params.target = some PathKind.file := by
    cases h : st.fs.stat params.target with
    | none => exact Or.inl rfl
    | some k =>
      cases k with
      | file => exact Or.inr rfl
      | dir => exact absurd h hmk
  refine ⟨?_, ?_, ?_⟩
  · intro h0
    cases hstat with
    | inl h => simp [publishBlockVol, mkfile, h, hro, h0]
    | inr h => simp [publishBlockVol, mkfile, h, hro, h0]
  · intro m hm hpath
    cases hstat with
    | inl h => simp [publishBlockVol, mkfile, h, hro, hm, hpath]
    | inr h => simp [publishBlockVol, mkfile, h, hro, hm, hpath]
  · intro h2
    obtain ⟨a, b, rest, hlist⟩ : ∃ a b rest, getDevMounts dev st.mounts = a :: b :: rest := by
      cases hl : getDevMounts dev st.mounts with
      | nil => rw [hl] at h2; simp at h2
      | cons a t =>
        cases t with
        | nil => rw [hl] at h2; simp at h2
        | cons b rest => exact ⟨a, b, rest, rfl⟩
    cases hstat with
    | inl h => simp [publishBlockVol, mkfile, h, hro, hlist]
    | inr h => simp [publishBlockVol, mkfile, h, hro, hlist]

/-- Witness for `publishBlockVol_rw_cases`: fresh device, no mounts, the
publish bind-mounts and succeeds. -/
theorem publishBlockVol_rw_cases_witness :
    pparamsRW.ro = false
    ∧ emptySt.fs.stat pparamsRW.target ≠ some PathKind.dir
    ∧ getDevMounts devB emptySt.mounts = []
    ∧ (publishBlockVol pparamsRW devB emptySt).1 = .ok () :=
  ⟨rfl, by decide, rfl,
   ((publishBlockVol_rw_cases pparamsRW devB emptySt rfl (by decide)).1 rfl).1⟩

/-! ## Claim theorems: stage -/

theorem getDevMounts_cons_own (dev : Device) (rec : MountInfo) (ms : List MountInfo)
    (h : rec.Device = dev.RealDev) :
    getDevMounts dev (rec :: ms) = rec :: getDevMounts dev ms := by
  simp [getDevMounts, h]

/-- C3: a fresh stage (zero existing device mounts) of a mount-capability
volume: read-only mounts the device at the staging target with `ro`
appended to the requested flags and performs no formatting (the sole OS
action is a plain mount); read-write formats and mounts with exactly the
filesystem type and flags from the capability. -/
theorem nodeStage_fresh (params : NodeStageParams) (dev : Device) (st : NodeState)
    (h0 : getDevMounts dev st.mounts = []) :
    (params.ro = true →
      nodeStageBlockVolume false params dev st =
        (.ok (),
         { st with mounts :=
             kernelMountRecord dev params.stagingTarget params.fsType (params.mntFlags ++ ["ro"]) :: st.mounts },
         [OsAction.mount dev.FullPath params.stagingTarget params.fsType (params.mntFlags ++ ["ro"])]))
    ∧ (params.ro = false →
      nodeStageBlockVolume false params dev st =
        (.ok (),
         { st with mounts :=
             kernelMountRecord dev params.stagingTarget params.fsType params.mntFlags :: st.mounts },
         [OsAction.formatAndMount dev.FullPath params.stagingTarget params.fsType params.mntFlags])) := by
  constructor
  · intro hro
    simp [nodeStageBlockVolume, h0, hro]
  · intro hro
    simp [nodeStageBlockVolume, h0, hro]

/-- Witness for `nodeStage_fresh`: staging a fresh read-write volume
formats and mounts it with the requested flags. -/
theorem nodeStage_fresh_witness :
    (let params : NodeStageParams := ⟨"vol-1", "ext4", "/stage", ["noatime"], false⟩
     getDevMounts devB emptySt.mounts = []
     ∧ params.ro = false
     ∧ nodeStageBlockVolume false params devB emptySt =
        (.ok (),
         { emptySt with mounts := [kernelMountRecord devB "/stage" "ext4" ["noatime"]] },
         [OsAction.formatAndMount devB.FullPath "/stage" "ext4" ["noatime"]])) :=
  ⟨rfl, rfl,
   (nodeStage_fresh ⟨"vol-1", "ext4", "/stage", ["noatime"], false⟩ devB emptySt rfl).2 rfl⟩

/-- Helper: a restage that finds the single device mount at the staging
target with the requested rw/ro option succeeds with no state change. -/
theorem nodeStage_restage_ok (params : NodeStageParams) (dev : Device) (st1 : NodeState)
    (rec : MountInfo) (hm : getDevMounts dev st1.mounts = [rec])
    (hpath : rec.Path = params.stagingTarget)
    (hopts : rec.Opts.contains (if params.ro then "ro" else "rw") = true) :
    nodeStageBlockVolume false params dev st1 = (.ok (), st1, []) := by
  have hmem : (if params.ro then "ro" else "rw") ∈ rec.Opts := by simpa using hopts
  simp [nodeStageBlockVolume, hm, List.find?, hpath, hmem]

/-- C2: staging a mount-capability volume whose backing device already has
mounts: the first mount at the staging target decides (requested rw/ro
option present → idempotent success with no OS action and no state
change; absent → `AlreadyExists`); mounts existing only elsewhere fail
`Internal`.  Moreover, from a state with no device mounts and no foreign
mount at the staging target, staging twice with identical parameters
(whose flags do not themselves carry an access-mode option) succeeds both
times, the second call changes nothing, and exactly one mount ends up at
the staging target. -/
theorem nodeStage_existing_and_idempotent (params : NodeStageParams) (dev : Device)
    (st : NodeState) :
    (∀ m, (getDevMounts dev st.mounts).find? (fun x => x.Path = params.stagingTarget) = some m →
      (m.Opts.contains (if params.ro then "ro" else "rw") = true →
        nodeStageBlockVolume false params dev st = (.ok (), st, []))
      ∧ (m.Opts.contains (if params.ro then "ro" else "rw") = false →
        (nodeStageBlockVolume false params dev st).1 =
          .error ⟨Code.AlreadyExists, "access mode conflicts with existing mount at staging target"⟩))
    ∧ (¬ getDevMounts dev st.mounts = [] →
      (getDevMounts dev st.mounts).find? (fun x => x.Path = params.stagingTarget) = none →
      (nodeStageBlockVolume false params dev st).1 =
        .error ⟨Code.Internal, "device already in use and mounted elsewhere"⟩)
    ∧ (getDevMounts dev st.mounts = [] →
      (∀ m ∈ st.mounts, ¬ m.Path = params.stagingTarget) →
      params.mntFlags.contains "ro" = false →
      ((nodeStageBlockVolume false params dev st).1 = .ok ()
       ∧ nodeStageBlockVolume false params dev (nodeStageBlockVolume false params dev st).2.1 =
           (.ok (), (nodeStageBlockVolume false params dev st).2.1, [])
       ∧ (((nodeStageBlockVolume false params dev st).2.1).mounts.filter
            (fun m => m.Path = params.stagingTarget)).length = 1)) := by
  refine ⟨?_, ?_, ?_⟩
  · intro m hfind
    have hne : ¬ getDevMounts dev st.mounts = [] := by
      intro h
      rw [h] at hfind
      simp at hfind
    have hlen : ¬ (getDevMounts dev st.mounts).length = 0 := by
      simpa [List.length_eq_zero] using hne
    constructor
    · intro hopts
      have hmem : (if params.ro then "ro" else "rw") ∈ m.Opts := by simpa using hopts
      simp [nodeStageBlockVolume, hlen, hfind, hmem]
    · intro hopts
      have hnmem : (if params.ro then "ro" else "rw") ∉ m.Opts := by simpa using hopts
      simp [nodeStageBlockVolume, hlen, hfind, hnmem]
  · intro hne hfind
    have hlen : ¬ (getDevMounts dev st.mounts).length = 0 := by
      simpa [List.length_eq_zero] using hne
    simp [nodeStageBlockVolume, hlen, hfind]
  · intro h0 hforeign hflags
    cases hro : params.ro with
    | true =>
      have hfst := (nodeStage_fresh params dev st h0).1 hro
      set rec := kernelMountRecord dev params.stagingTarget params.fsType (params.mntFlags ++ ["ro"]) with hrec
      have hst1 : (nodeStageBlockVolume false params dev st).2.1 =
          { st with mounts := rec :: st.mounts } := by rw [hfst]
      have hdm1 : getDevMounts dev ({ st with mounts := rec :: st.mounts } : NodeState).mounts
          = [rec] := by
        show getDevMounts dev (rec :: st.mounts) = [rec]
        rw [getDevMounts_cons_own dev rec st.mounts rfl, h0]
      refine ⟨by rw [hfst], ?_, ?_⟩
      · rw [hst1]
        refine nodeStage_restage_ok params dev _ rec hdm1 rfl ?_
        simp [hrec, kernelMountRecord, kernelOpts, hro]
      · rw [hst1]
        show ((rec :: st.mounts).filter (fun m => m.Path = params.stagingTarget)).length = 1
        have hrecpath : rec.Path = params.stagingTarget := rfl
        have hrest : st.mounts.filter (fun m => m.Path = params.stagingTarget) = [] := by
          apply List.filter_eq_nil_iff.mpr
          intro m hm
          simpa using hforeign m hm
        simp [List.filter, hrecpath, hrest]
    | false =>
      have hfst := (nodeStage_fresh params dev st h0).2 hro
      set rec := kernelMountRecord dev params.stagingTarget params.fsType params.mntFlags with hrec
      have hst1 : (nodeStageBlockVolume false params dev st).2.1 =
          { st with mounts := rec :: st.mounts } := by rw [hfst]
      have hdm1 : getDevMounts dev ({ st with mounts := rec :: st.mounts } : NodeState).mounts
          = [rec] := by
        show getDevMounts dev (rec :: st.mounts) = [rec]
        rw [getDevMounts_cons_own dev rec st.mounts rfl, h0]
      refine ⟨by rw [hfst], ?_, ?_⟩
      · rw [hst1]
        refine nodeStage_restage_ok params dev _ rec hdm1 rfl ?_
        have hnro : "ro" ∉ params.mntFlags := by simpa using hflags
        simp [hrec, kernelMountRecord, kernelOpts, hro, hnro]
      · rw [hst1]
        show ((rec :: st.mounts).filter (fun m => m.Path = params.stagingTarget)).length = 1
        have hrecpath : rec.Path = params.stagingTarget := rfl
        have hrest : st.mounts.filter (fun m => m.Path = params.stagingTarget) = [] := by
          apply List.filter_eq_nil_iff.mpr
          intro m hm
          simpa using hforeign m hm
        simp [List.filter, hrecpath, hrest]

/-- Witness for `nodeStage_existing_and_idempotent`: double-stage of a
fresh read-write volume succeeds twice with one mount at the staging
target. -/
theorem nodeStage_existing_and_idempotent_witness :
    (let params : NodeStageParams := ⟨"vol-1", "ext4", "/stage", ["noatime"], false⟩
     getDevMounts devB emptySt.mounts = []
     ∧ params.mntFlags.contains "ro" = false
     ∧ (nodeStageBlockVolume false params devB emptySt).1 = .ok ()
     ∧ nodeStageBlockVolume false params devB (nodeStageBlockVolume false params devB emptySt).2.1 =
         (.ok (), (nodeStageBlockVolume false params devB emptySt).2.1, [])
     ∧ (((nodeStageBlockVolume false params devB emptySt).2.1).mounts.filter
          (fun m => m.Path = params.stagingTarget)).length = 1) := by
  have h := (nodeStage_existing_and_idempotent
    ⟨"vol-1", "ext4", "/stage", ["noatime"], false⟩ devB emptySt).2.2 rfl
    (by intro m hm; simp [emptySt] at hm) (by decide)
  exact ⟨rfl, by decide, h.1, h.2.1, h.2.2⟩

/-! ## Claim theorems: publish with two simultaneous mounts (C5) -/

/-- A node state where the backing device is mounted twice, neither mount
at the publish target `/t`. -/
def twoMountSt : NodeState :=
  ⟨[], [⟨"/dev/sdb", "/mnt/a", "/dev/sdb", "ext4", ["rw"]⟩,
        ⟨"/dev/sdb", "/mnt/b", "/dev/sdb", "ext4", ["rw"]⟩], []⟩

/-- Counterexample to C5: with two simultaneous device mounts, neither at
the publish target, a block-capability Publish fails `AlreadyExists`
("block volume already mounted in more than one place"), not `Internal`
as claimed. -/
theorem publish_two_mounts_counterexample :
    (getDevMounts devB twoMountSt.mounts).length = 2
    ∧ (getDevMounts devB twoMountSt.mounts).all (fun m => m.Path != pparamsRW.target) = true
    ∧ (publishBlockVol pparamsRW devB twoMountSt).1 =
        .error ⟨Code.AlreadyExists, "block volume already mounted in more than one place"⟩
    ∧ ¬ errCode (publishBlockVol pparamsRW devB twoMountSt).1 = some Code.Internal := by
  refine ⟨by decide, by decide, by decide, by decide⟩

/-- C5 (amended): with two or more simultaneous device mounts, none at
the publish target, a block-capability Publish fails `AlreadyExists`,
and a mount-capability Publish proceeds to the bind mount of the staging
directory into the target and succeeds.  (`Internal` is what a
block-capability Publish returns for exactly ONE mount elsewhere, proved
in the C7 theorem.) -/
theorem publish_two_mounts_amended (params : NodePublishParams) (mntFlags : List String)
    (dev : Device) (st : NodeState)
    (hro : params.ro = false)
    (h2 : 2 ≤ (getDevMounts dev st.mounts).length)
    (hnone : (getDevMounts dev st.mounts).find? (fun m => m.Path = params.target) = none) :
    (st.fs.stat params.target = none →
      (publishBlockVol params dev st).1 =
        .error ⟨Code.AlreadyExists, "block volume already mounted in more than one place"⟩)
    ∧ (¬ params.stagingTarget = "" →
       st.fs.stat params.target = some PathKind.dir →
       st.fs.stat params.stagingTarget = some PathKind.dir →
       (publishMountVol params mntFlags dev st).1 = .ok ()
       ∧ (publishMountVol params mntFlags dev st).2.2 =
           [OsAction.bindMount params.stagingTarget params.target mntFlags]) := by
  obtain ⟨a, b, rest, hlist⟩ : ∃ a b rest, getDevMounts dev st.mounts = a :: b :: rest := by
    cases hl : getDevMounts dev st.mounts with
    | nil => rw [hl] at h2; simp at h2
    | cons a t =>
      cases t with
      | nil => rw [hl] at h2; simp at h2
      | cons b rest => exact ⟨a, b, rest, rfl⟩
  constructor
  · intro hstat
    simp [publishBlockVol, mkfile, hstat, hro, hlist]
  · intro hstg hdir hstgdir
    have hlen0 : ¬ (getDevMounts dev st.mounts).length = 0 := by
      rw [hlist]; simp
    have hlen1 : 1 < (getDevMounts dev st.mounts).length := by
      rw [hlist]; simp
    constructor
    · simp [publishMountVol, mkdir, hdir, verifyTargetDir, hstg, hstgdir,
        hlen0, hlen1, hnone, publishMountVolBind]
    · simp [publishMountVol, mkdir, hdir, verifyTargetDir, hstg, hstgdir,
        hlen0, hlen1, hnone, publishMountVolBind, hro]

/-- Witness for `publish_two_mounts_amended` at the fixture state (block
branch: `AlreadyExists`; mount branch with pre-created directories: bind
mount succeeds). -/
theorem publish_two_mounts_amended_witness :
    (let stDirs : NodeState :=
       ⟨[("/t", PathKind.dir), ("/stage", PathKind.dir)], twoMountSt.mounts, []⟩
     pparamsRW.ro = false
     ∧ 2 ≤ (getDevMounts devB twoMountSt.mounts).length
     ∧ (publishBlockVol pparamsRW devB twoMountSt).1 =
         .error ⟨Code.AlreadyExists, "block volume already mounted in more than one place"⟩
     ∧ (publishMountVol pparamsRW ["noatime"] devB stDirs).1 = .ok ()) := by
  refine ⟨rfl, by decide, ?_, ?_⟩
  · exact (publish_two_mounts_amended pparamsRW ["noatime"] devB twoMountSt rfl
      (by decide) (by decide)).1 rfl
  · exact ((publish_two_mounts_amended pparamsRW ["noatime"] devB
      ⟨[("/t", PathKind.dir), ("/stage", PathKind.dir)], twoMountSt.mounts, []⟩ rfl
      (by decide) (by decide)).2 (by decide) rfl rfl).1

/-! ## Claim theorems: nil device behind mount (C6) -/

/-- A node state with a leftover path artifact at `/t` and nothing
mounted. -/
def leftoverSt : NodeState := ⟨[("/t", PathKind.file)], [], []⟩

/-- Counterexample to C6: with nothing mounted at the target but a
leftover path artifact present, NodeUnpublishVolume and NodeUnstageVolume
return success WITHOUT removing the artifact (no OS action, state
unchanged, the artifact still present afterwards), contrary to the
claim's "still remove any leftover path artifact". -/
theorem unpublish_no_cleanup_counterexample :
    leftoverSt.fs.stat "/t" = some PathKind.file
    ∧ leftoverSt.mounts = []
    ∧ nodeUnpublishVolume "/t" leftoverSt = (.ok (), leftoverSt, [])
    ∧ nodeUnstageVolume "/t" leftoverSt = (.ok (), leftoverSt, [])
    ∧ (nodeUnpublishVolume "/t" leftoverSt).2.1.fs.stat "/t" = some PathKind.file := by
  refine ⟨by decide, rfl, by decide, by decide, by decide⟩

/-- C6 (amended): whenever nothing is mounted at the target path,
`getDevFromMount` returns nil (`.ok none`) rather than an error, and
NodeUnpublishVolume and NodeUnstageVolume treat the target as already
complete: they return success without performing any OS action, leaving
any leftover path artifact in place. -/
theorem devFromMount_nil_idempotent (target : String) (st : NodeState)
    (h : ∀ m ∈ st.mounts, ¬ m.Path = target) :
    getDevFromMount target st = .ok none
    ∧ nodeUnpublishVolume target st = (.ok (), st, [])
    ∧ nodeUnstageVolume target st = (.ok (), st, []) := by
  have hfind : st.mounts.find? (fun m => m.Path = target) = none := by
    apply List.find?_eq_none.mpr
    intro m hm
    simpa using h m hm
  have hniT : isTargetInMounts target st.mounts = false := by
    simp only [isTargetInMounts, List.any_eq_false, decide_eq_true_eq]
    exact h
  refine ⟨?_, ?_, ?_⟩
  · simp [getDevFromMount, hfind]
  · cases hstat : st.fs.stat target with
    | none => simp [nodeUnpublishVolume, hstat]
    | some k => simp [nodeUnpublishVolume, hstat, hniT]
  · simp [nodeUnstageVolume, hniT]

/-- Witness for `devFromMount_nil_idempotent` at the leftover-artifact
fixture. -/
theorem devFromMount_nil_idempotent_witness :
    getDevFromMount "/t" leftoverSt = .ok none
    ∧ nodeUnpublishVolume "/t" leftoverSt = (.ok (), leftoverSt, [])
    ∧ nodeUnstageVolume "/t" leftoverSt = (.ok (), leftoverSt, []) :=
  devFromMount_nil_idempotent "/t" leftoverSt (by intro m hm; cases hm)

end VsphereCSI
